import Mathlib

/-!
Shallow embedding of the `mgmysql` Vault database plugin
(`mgtv_mysql.go` and `connection_producer.go`).

The plugin mediates between a secrets-management host and a remote
HTTP provisioning service.  The Go functions `NewUser`, `DeleteUser`
and the connection-producer `Init`/`Initialize` are modelled as pure
Lean functions.  Calls into the Go standard library and vendored
libraries (`encoding/json`, `net/http`, `credsutil`, `mapstructure`)
are threaded through as explicit function parameters, so every theorem
quantifies over their behaviour; the values those libraries can
produce (`interface{}` results of `json.Unmarshal`) are modelled by
the inductive type `GoVal` below.

Each model function also returns a trace of the request bodies it
handed to `httpClient.Post`, which makes "aborts before any network
I/O" and "the request that was sent carried field F" statable.
-/

namespace MgMysql

/-- Go `interface{}` values as they appear in this program.
`encoding/json.Unmarshal` into `map[string]interface{}` produces only
`goNil` (JSON null), `goBool`, `goFloat64` (every JSON number decodes
to a `float64`), `goString`, `goArr` and `goMap`.  `goInt` represents
Go `int` values; it is never produced by `Unmarshal`, but the untyped
constant `0` in the comparison `body["priv"] != 0`
(mgtv_mysql.go:125) has default type `int`, so it is needed as a
comparison operand.  `float64` payloads are modelled as rationals:
every JSON number the program compares against (`0`) is exact. -/
inductive GoVal where
  | goNil
  | goBool (b : Bool)
  | goFloat64 (q : Rat)
  | goString (s : String)
  | goInt (n : Int)
  | goArr (elems : List GoVal)
  | goMap (fields : List (String × GoVal))

/-- A decoded `map[string]interface{}`, as an association list. -/
abbrev GoObj := List (String × GoVal)

/-- Go map indexing `m[k]`: a missing key yields the zero value of
`interface{}`, i.e. `nil` — indistinguishable from a stored JSON
`null`, exactly as in Go. -/
def mapGet : GoObj → String → GoVal
  | [], _ => .goNil
  | (k', v) :: rest, k => if k' = k then v else mapGet rest k

/-- Go map assignment `m[k] = v`: replaces an existing binding for `k`
or adds one. -/
def mapSet : GoObj → String → GoVal → GoObj
  | [], k, v => [(k, v)]
  | (k', v') :: rest, k, v =>
      if k' = k then (k, v) :: rest else (k', v') :: mapSet rest k v

/-- Go interface comparison `v != nil` (mgtv_mysql.go:125).  Dynamic
values of different types are unequal; only the nil interface equals
`nil`. -/
def goNeNil : GoVal → Bool
  | .goNil => false
  | _ => true

/-- Go interface comparison `v != 0` (mgtv_mysql.go:125).  The untyped
constant `0` converts to the interface type with dynamic type `int`,
so only an `int 0` compares equal — in particular a `float64 0`
decoded from JSON does *not*. -/
def goNeIntZero : GoVal → Bool
  | .goInt 0 => false
  | _ => true

/-- Go interface comparison `v != "0"` (mgtv_mysql.go:125). -/
def goNeStrZero : GoVal → Bool
  | .goString s => !(s == "0")
  | _ => true

/-- Rendering of an `interface{}` value by `fmt`'s `%s` verb, used for
`result["error"]` in the failure messages (mgtv_mysql.go:158,218).
A string prints as itself; a nil interface prints as `%!s(<nil>)`;
other dynamic types hit `%s`'s bad-verb path, rendered here with a
faithful shape for scalars and a simplified stand-in for composites
(no claim exercises those cases). -/
def goFmtS : GoVal → String
  | .goString s => s
  | .goNil => "%!s(<nil>)"
  | .goBool b => "%!s(bool=" ++ (if b then "true" else "false") ++ ")"
  | .goInt n => "%!s(int=" ++ toString n ++ ")"
  | .goFloat64 q => "%!s(float64=" ++ toString q ++ ")"
  | .goArr _ => "%!s([...])"
  | .goMap _ => "%!s(map[...])"

/-- `fmt`'s `%s` verb applied to the `int` status code
(mgtv_mysql.go:145,205 pass `response.StatusCode` to `%s`): Go renders
a non-string under `%s` as `%!s(int=<decimal>)`. -/
def goIntAsS (n : Int) : String := "%!s(int=" ++ toString n ++ ")"

/-- Go panic message of a failed type assertion `v.(float64)`
(mgtv_mysql.go:157,217). -/
def goTypeName : GoVal → String
  | .goNil => "nil"
  | .goBool _ => "bool"
  | .goFloat64 _ => "float64"
  | .goString _ => "string"
  | .goInt _ => "int"
  | .goArr _ => "[]interface \x7b\x7d"
  | .goMap _ => "map[string]interface \x7b\x7d"

def assertFloat64Panic (v : GoVal) : String :=
  "interface conversion: interface \x7b\x7d is " ++ goTypeName v ++ ", not float64"

/-- Outcome of a Go function call that can return normally, return an
`error`, or die with a runtime panic (the `fatal` case models the
unrecoverable type-assertion panic). -/
inductive GoOutcome (α : Type) where
  | ok (a : α)
  | err (msg : String)
  | fatal (msg : String)
deriving DecidableEq

/-- Result of `httpClient.Post`: the status code and the outcome of
reading the response body with `ioutil.ReadAll`. -/
structure HttpResponse where
  statusCode : Int
  bodyRead : Except String String

-- Constants from mgtv_mysql.go:22-31.
def mysqlTypeName : String := "mgtv_mysql"
def maxKeyLength : Int := 13
def addUser : String := "AddUser"
def delUser : String := "VaultDelUser"

/-- `nameTrunc` (mgtv_mysql.go:82-94).  Go slices strings by bytes;
the generated usernames are ASCII, where bytes and characters
coincide, so the model truncates by characters. -/
def nameTrunc (str : String) (l : Int) : String :=
  if 0 < l then
    if (str.length : Int) < l then str
    else ⟨str.data.take l.toNat⟩
  else if l = 0 then str
  else ""

/-- `strings.ToUpper` (mgtv_mysql.go:105), character-wise. -/
def strToUpper (s : String) : String := ⟨s.data.map Char.toUpper⟩

/-- The truthiness test on the decoded `priv` field,
`body["priv"] != nil && body["priv"] != 0 && body["priv"] != "0"`
(mgtv_mysql.go:125). -/
def privTruthy (body : GoObj) : Bool :=
  goNeNil (mapGet body "priv") && goNeIntZero (mapGet body "priv")
    && goNeStrZero (mapGet body "priv")

/-- The final username: generated name truncated to 13, upper-cased
(mgtv_mysql.go:100-105), then suffixed `_rw`/`_r` according to the
`priv` test (mgtv_mysql.go:125-129). -/
def newUserName (raw : String) (body : GoObj) : String :=
  let base := strToUpper (nameTrunc raw maxKeyLength)
  if privTruthy body then base ++ "_rw" else base ++ "_r"

/-- The request body `NewUser` builds from the decoded create
statement (mgtv_mysql.go:130-133). -/
def newUserBody (raw token password : String) (body : GoObj) : GoObj :=
  mapSet (mapSet (mapSet (mapSet body
    "username" (.goString (newUserName raw body)))
    "password" (.goString password))
    "action" (.goString addUser))
    "token" (.goString token)

/-- `MgtvMysql.NewUser` (mgtv_mysql.go:96-165).
Library calls appear as parameters:
* `unmarshal` — `json.Unmarshal` into `map[string]interface{}`
  (used for the create statement at line 121 and the response body at
  line 152);
* `marshal` — `json.Marshal` of the built body (line 134);
* `post` — `c.httpClient.Post(c.ConnectionURL, "application/json", ·)`
  (line 140);
* `genUsername` — the result of `credsutil.GenerateUsername` (line
  100);
* `token` — `os.Getenv("mysql_token")` (line 108);
* `statements` — `req.Statements.Commands`; `password` — `req.Password`.
The second component of the result is the trace of body objects handed
to `marshal`-and-`post`; it is empty exactly when the call returned
before any network I/O.  The lock acquisition at lines 98-99 is
modelled separately (see `newUserProg`). -/
def NewUser
    (unmarshal : String → Except String GoObj)
    (marshal : GoObj → Except String String)
    (post : String → Except String HttpResponse)
    (genUsername : Except String String)
    (token password : String)
    (statements : List String) : GoOutcome String × List GoObj :=
  match genUsername with
  | .error e => (.err ("failed to generate username: " ++ e), [])
  | .ok raw =>
    -- lines 101-105: truncate before the error check (no observable
    -- difference), then upper-case
    if token.length = 0 then (.err "not exist mysql token", [])
    else if statements.length > 1 then
      (.err "a maximum of one create_statement is supported", [])
    else
      match statements with
      | [] => (.err "create_statement is empty", [])
      | statement :: _ =>
        match unmarshal statement with
        | .error e => (.err e, [])
        | .ok body =>
          let username := newUserName raw body
          let outBody := newUserBody raw token password body
          match marshal outBody with
          | .error e => (.err e, [])
          | .ok payload =>
            match post payload with
            | .error e =>
                (.err ("invoke db create user: " ++ username
                  ++ " failed: " ++ e), [outBody])
            | .ok response =>
              if response.statusCode ≠ 200 then
                (.err ("invoke db create user:" ++ username
                  ++ " failed: http statusCode: "
                  ++ goIntAsS response.statusCode), [outBody])
              else
                match response.bodyRead with
                | .error e =>
                    (.err ("invoke db create user:" ++ username
                      ++ " failed: " ++ e), [outBody])
                | .ok respBody =>
                  match unmarshal respBody with
                  | .error e =>
                      (.err ("invoke db create user:" ++ username
                        ++ " failed: " ++ e), [outBody])
                  | .ok result =>
                    match mapGet result "status" with
                    | .goFloat64 q =>
                      if q ≠ 0 then
                        (.err ("invoke db create user:" ++ username
                          ++ " failed: "
                          ++ goFmtS (mapGet result "error")), [outBody])
                      else (.ok username, [outBody])
                    | v => (.fatal (assertFloat64Panic v), [outBody])

/-- The error message of `DeleteUser` for an empty statement list
(mgtv_mysql.go:181).  The format string is
`"revocation % failed,Revocation Statements is empty"`; `fmt` reads
`% f` as the verb `f` with the space flag applied to the string
argument, producing the bad-verb rendering shown here. -/
def delEmptyMsg (username : String) : String :=
  "revocation %!f(string=" ++ username
    ++ ")ailed,Revocation Statements is empty"

/-- The request body `DeleteUser` builds from the decoded revocation
statement (mgtv_mysql.go:193-195). -/
def deleteBody (token username : String) (revocation : GoObj) : GoObj :=
  mapSet (mapSet (mapSet revocation
    "action" (.goString delUser))
    "token" (.goString token))
    "username" (.goString username)

/-- `MgtvMysql.DeleteUser` (mgtv_mysql.go:175-221).  Parameters as in
`NewUser`; `token` is `os.Getenv("mysql_token")` as read at line 194
(note: unlike `NewUser`, this function never validates it), `username`
is `req.Username`, `statements` is `req.Statements.Commands`. -/
def DeleteUser
    (unmarshal : String → Except String GoObj)
    (marshal : GoObj → Except String String)
    (post : String → Except String HttpResponse)
    (token username : String)
    (statements : List String) : GoOutcome Unit × List GoObj :=
  match statements with
  | [] => (.err (delEmptyMsg username), [])
  | revocationStr :: _ =>
    match unmarshal revocationStr with
    | .error e => (.err e, [])
    | .ok revocation =>
      let outBody := deleteBody token username revocation
      match marshal outBody with
      | .error e => (.err e, [])
      | .ok payload =>
        match post payload with
        | .error e => (.err e, [outBody])
        | .ok response =>
          if response.statusCode ≠ 200 then
            (.err ("delete user failed: http statusCode: "
              ++ goIntAsS response.statusCode), [outBody])
          else
            match response.bodyRead with
            | .error e => (.err ("delete user failed: " ++ e), [outBody])
            | .ok respBody =>
              match unmarshal respBody with
              | .error e => (.err ("delete user failed: " ++ e), [outBody])
              | .ok result =>
                match mapGet result "status" with
                | .goFloat64 q =>
                  if q ≠ 0 then
                    (.err ("delete user failed: "
                      ++ goFmtS (mapGet result "error")), [outBody])
                  else (.ok (), [outBody])
                | v => (.fatal (assertFloat64Panic v), [outBody])

/-! ### Connection producer (connection_producer.go) -/

/-- The `mgtvMysqlConnectionProducer` struct
(connection_producer.go:18-30).  The opaque handles (`httpClient`,
`db`, the mutex) are not data; duration fields are nanoseconds as in
Go's `time.Duration`. -/
structure ConnProducer where
  connectionURL : String
  typeName : String
  rawConfig : GoObj
  timeout : Int
  keepAlive : Int
  idleConnTimeout : Int
  maxIdleConns : Int
  inited : Bool

/-- `mgtvMysqlConnectionProducer.Init` (connection_producer.go:37-66).
`decode` abstracts the `mapstructure` weakly-typed decode of the
supplied configuration into the producer's fields (lines 43-57,
including possible decoder-construction failure); whatever it does —
in particular, whatever it stores into `connectionURL` from a
`connection_url` config field — line 60 then unconditionally
overwrites `connectionURL` with `os.Getenv("vault_mysql_db")`
(`envURL` here).  Returns the result value together with the mutated
producer, since Go mutates the receiver in place. -/
def producerInit
    (decode : GoObj → ConnProducer → Except String ConnProducer)
    (envURL : String) (c : ConnProducer) (initConfig : GoObj) :
    Except String GoObj × ConnProducer :=
  let c1 := { c with rawConfig := initConfig }
  match decode initConfig c1 with
  | .error e => (.error e, c1)
  | .ok c2 =>
      (.ok initConfig, { c2 with connectionURL := envURL, inited := true })

/-- `MgtvMysql.Initialize` (mgtv_mysql.go:71-80) composed with
`mgtvMysqlConnectionProducer.Initialize` (connection_producer.go:68-72):
runs `Init` and echoes `req.Config` back in the response on success.
(`initHttpConnPool` only fills the opaque `httpClient`, which carries
no modelled data.)  The `Bool` argument is `req.VerifyConnection`,
unused as in the source. -/
def mgtvInit
    (decode : GoObj → ConnProducer → Except String ConnProducer)
    (envURL : String) (c : ConnProducer) (config : GoObj) (_ : Bool) :
    Except String GoObj × ConnProducer :=
  match producerInit decode envURL c config with
  | (.error e, c') => (.error e, c')
  | (.ok _, c') => (.ok config, c')

/-! ### Lock model for `NewUser`/`DeleteUser` (C8)

`NewUser` (mgtv_mysql.go:98-99) and `DeleteUser` (mgtv_mysql.go:176-177)
both begin with `c.Lock()` and `defer c.Unlock()` on the single
`sync.Mutex` embedded in the shared `mgtvMysqlConnectionProducer`
(connection_producer.go:29), so the whole body — including the HTTP
exchange — runs inside the critical section.  Each call is modelled as
the three-step program *acquire; exchange; release*; two threads each
run one such program, interleaved by a small-step semantics in which
`lock` blocks while the mutex is held. -/

inductive LockAct where
  | lock
  | net
  | unlock
deriving DecidableEq

/-- The locking skeleton of `NewUser` (mgtv_mysql.go:96-165): acquire
the producer mutex, perform the network exchange, release. -/
def newUserProg : List LockAct := [.lock, .net, .unlock]

/-- The locking skeleton of `DeleteUser` (mgtv_mysql.go:175-221). -/
def deleteUserProg : List LockAct := [.lock, .net, .unlock]

/-- State of two concurrent callers sharing one mutex: the current
holder (if any) and each thread's program counter. -/
structure MuState where
  holder : Option (Fin 2)
  pc : Fin 2 → Nat

def muInit : MuState := ⟨none, fun _ => 0⟩

/-- One interleaving step: thread `t` executes the next action of its
program.  `lock` requires the mutex to be free and takes it; `unlock`
frees it; `net` (the HTTP exchange) has no guard of its own — mutual
exclusion must come from the program structure. -/
inductive MuStep (progs : Fin 2 → List LockAct) : MuState → MuState → Prop where
  | lockStep (t : Fin 2) (s : MuState) :
      (progs t).get? (s.pc t) = some .lock → s.holder = none →
      MuStep progs s ⟨some t, Function.update s.pc t (s.pc t + 1)⟩
  | netStep (t : Fin 2) (s : MuState) :
      (progs t).get? (s.pc t) = some .net →
      MuStep progs s ⟨s.holder, Function.update s.pc t (s.pc t + 1)⟩
  | unlockStep (t : Fin 2) (s : MuState) :
      (progs t).get? (s.pc t) = some .unlock →
      MuStep progs s ⟨none, Function.update s.pc t (s.pc t + 1)⟩

/-- States reachable from the initial state by interleaving the two
threads' programs. -/
inductive MuReach (progs : Fin 2 → List LockAct) : MuState → Prop where
  | start : MuReach progs muInit
  | next {s s' : MuState} : MuReach progs s → MuStep progs s s' →
      MuReach progs s'

/-- Thread `t` is inside its call's critical section (past the
`Lock()`, at or before the deferred `Unlock()`) — in particular this
is where its network exchange happens. -/
def inCrit (s : MuState) (t : Fin 2) : Prop := 1 ≤ s.pc t ∧ s.pc t ≤ 2

/-- Both call skeletons are the same three-step program. -/
theorem progShape {l : List LockAct}
    (hl : l = newUserProg ∨ l = deleteUserProg) :
    l = [.lock, .net, .unlock] := by
  cases hl with
  | inl h => exact h
  | inr h => exact h

theorem lockProg_lock_pos {i : Nat}
    (h : ([LockAct.lock, .net, .unlock] : List LockAct).get? i
      = some .lock) : i = 0 := by
  match i with
  | 0 => rfl
  | 1 => simp at h
  | 2 => simp at h
  | n + 3 => simp at h

theorem lockProg_net_pos {i : Nat}
    (h : ([LockAct.lock, .net, .unlock] : List LockAct).get? i
      = some .net) : i = 1 := by
  match i with
  | 0 => simp at h
  | 1 => rfl
  | 2 => simp at h
  | n + 3 => simp at h

theorem lockProg_unlock_pos {i : Nat}
    (h : ([LockAct.lock, .net, .unlock] : List LockAct).get? i
      = some .unlock) : i = 2 := by
  match i with
  | 0 => simp at h
  | 1 => simp at h
  | 2 => rfl
  | n + 3 => simp at h

/-- Lock-ownership invariant: a thread whose program counter is inside
the critical section holds the mutex. -/
def MuInv (s : MuState) : Prop :=
  ∀ t : Fin 2, 1 ≤ s.pc t → s.pc t ≤ 2 → s.holder = some t

theorem muReach_inv {progs : Fin 2 → List LockAct}
    (hp : ∀ t, progs t = newUserProg ∨ progs t = deleteUserProg)
    {s : MuState} (hr : MuReach progs s) : MuInv s := by
  induction hr with
  | start =>
    intro t h1 _
    simp [muInit] at h1
  | @next s0 s1 _ hs ih =>
    cases hs with
    | lockStep t s2 hget hnone =>
      rw [progShape (hp t)] at hget
      have hpc : s0.pc t = 0 := lockProg_lock_pos hget
      intro t' h1 h2
      by_cases ht : t' = t
      · subst ht; rfl
      · exfalso
        have he : (⟨some t, Function.update s0.pc t (s0.pc t + 1)⟩ :
            MuState).pc t' = s0.pc t' := Function.update_noteq ht _ _
        rw [he] at h1 h2
        rw [ih t' h1 h2] at hnone
        exact Option.noConfusion hnone
    | netStep t s2 hget =>
      rw [progShape (hp t)] at hget
      have hpc : s0.pc t = 1 := lockProg_net_pos hget
      intro t' h1 h2
      by_cases ht : t' = t
      · subst ht
        show s0.holder = some t'
        exact ih t' (by omega) (by omega)
      · have he : (⟨s0.holder, Function.update s0.pc t (s0.pc t + 1)⟩ :
            MuState).pc t' = s0.pc t' := Function.update_noteq ht _ _
        rw [he] at h1 h2
        exact ih t' h1 h2
    | unlockStep t s2 hget =>
      rw [progShape (hp t)] at hget
      have hpc : s0.pc t = 2 := lockProg_unlock_pos hget
      intro t' h1 h2
      by_cases ht : t' = t
      · subst ht
        exfalso
        have he : (⟨none, Function.update s0.pc t' (s0.pc t' + 1)⟩ :
            MuState).pc t' = s0.pc t' + 1 := Function.update_same _ _ _
        rw [he] at h1 h2
        omega
      · exfalso
        have he : (⟨none, Function.update s0.pc t (s0.pc t + 1)⟩ :
            MuState).pc t' = s0.pc t' := Function.update_noteq ht _ _
        rw [he] at h1 h2
        have ha := ih t' h1 h2
        have hb := ih t (by omega) (by omega)
        rw [ha] at hb
        exact ht (Option.some.inj hb)

/-! ### Substring test (for "the message names X") -/

/-- `needle` is a prefix of `hay` (character lists). -/
def listPrefOf : List Char → List Char → Bool
  | [], _ => true
  | _ :: _, [] => false
  | a :: as, b :: bs => a == b && listPrefOf as bs

/-- `needle` occurs contiguously inside `hay` (character lists). -/
def listSubOf (needle : List Char) : List Char → Bool
  | [] => needle.isEmpty
  | b :: t => listPrefOf needle (b :: t) || listSubOf needle t

/-- `needle` occurs contiguously inside `hay`: the formalisation of
"the error message names / contains `needle`". -/
def strIn (needle hay : String) : Bool := listSubOf needle.data hay.data

theorem listPrefOf_append (n t : List Char) : listPrefOf n (n ++ t) = true := by
  induction n with
  | nil => rfl
  | cons a as ih => simp [listPrefOf, ih]

theorem listSubOf_append_right (n : List Char) {y : List Char}
    (h : listSubOf n y = true) (x : List Char) :
    listSubOf n (x ++ y) = true := by
  induction x with
  | nil => simpa using h
  | cons a x' ih => simp [listSubOf, ih]

theorem listSubOf_self_append (n t : List Char) :
    listSubOf n (n ++ t) = true := by
  cases n with
  | nil =>
    cases t with
    | nil => rfl
    | cons b t' => simp [listSubOf, listPrefOf]
  | cons c n' =>
    rw [List.cons_append, listSubOf]
    have hp := listPrefOf_append (c :: n') t
    rw [List.cons_append] at hp
    simp [hp]

/-- A string of the shape `p ++ u ++ s` contains `u`. -/
theorem strIn_sandwich (p u s : String) : strIn u (p ++ u ++ s) = true := by
  have h : (p ++ u ++ s).data = p.data ++ (u.data ++ s.data) := by
    simp [String.data_append, List.append_assoc]
  rw [strIn, h]
  exact listSubOf_append_right _ (listSubOf_self_append _ _) _

/-- A string of the shape `p ++ u` contains `u`. -/
theorem strIn_append_right (p u : String) : strIn u (p ++ u) = true := by
  have h : (p ++ u).data = p.data ++ (u.data ++ []) := by
    simp [String.data_append]
  rw [strIn, h]
  exact listSubOf_append_right _ (listSubOf_self_append _ _) _

/-! ### Association-list (Go map) lemmas -/

theorem mapGet_set_self (m : GoObj) (k : String) (v : GoVal) :
    mapGet (mapSet m k v) k = v := by
  induction m with
  | nil => simp [mapSet, mapGet]
  | cons p rest ih =>
    obtain ⟨k', v'⟩ := p
    by_cases h : k' = k
    · simp [mapSet, h, mapGet]
    · simp [mapSet, h, mapGet, ih]

theorem mapGet_set_ne (m : GoObj) {k' k : String} (h : k' ≠ k) (v : GoVal) :
    mapGet (mapSet m k' v) k = mapGet m k := by
  induction m with
  | nil => simp [mapSet, mapGet, h]
  | cons p rest ih =>
    obtain ⟨k'', v''⟩ := p
    by_cases h2 : k'' = k'
    · simp [mapSet, h2, mapGet, h]
    · simp only [mapSet, h2, if_false, mapGet]
      by_cases h3 : k'' = k <;> simp [h3, ih]

/-- The body posted by `NewUser` carries the final suffixed username
(mgtv_mysql.go:130: `body["username"] = username`, not disturbed by the
later `password`/`action`/`token` writes). -/
theorem newUserBody_username (raw token password : String) (body : GoObj) :
    mapGet (newUserBody raw token password body) "username"
      = .goString (newUserName raw body) := by
  unfold newUserBody
  rw [mapGet_set_ne _ (by decide), mapGet_set_ne _ (by decide),
    mapGet_set_ne _ (by decide), mapGet_set_self]

/-- The body posted by `DeleteUser` carries the token exactly as read
from the environment (mgtv_mysql.go:194), whatever it is. -/
theorem deleteBody_token (token username : String) (revocation : GoObj) :
    mapGet (deleteBody token username revocation) "token"
      = .goString token := by
  unfold deleteBody
  rw [mapGet_set_ne _ (by decide), mapGet_set_self]

/-! ### Username length -/

theorem strToUpper_length (s : String) :
    (strToUpper s).length = s.length := by
  show (s.data.map Char.toUpper).length = s.data.length
  simp

/-- `nameTrunc` with the positive bound 13 returns at most 13
characters (mgtv_mysql.go:82-94 with `maxKeyLength = 13`). -/
theorem nameTrunc_le (s : String) :
    (nameTrunc s maxKeyLength).length ≤ 13 := by
  rw [nameTrunc]
  have h13 : (0 : Int) < maxKeyLength := by decide
  rw [if_pos h13]
  by_cases h : (s.length : Int) < maxKeyLength
  · rw [if_pos h]
    have := h
    rw [maxKeyLength] at this
    omega
  · rw [if_neg h]
    show (s.data.take maxKeyLength.toNat).length ≤ 13
    rw [List.length_take]
    simp [maxKeyLength]

theorem string_length_eq_zero (s : String) : s.length = 0 ↔ s = "" := by
  cases s with
  | mk d =>
    constructor
    · intro h
      rw [List.length_eq_zero.mp h]
    · intro h
      rw [h]
      rfl

/-! ### Concrete library stand-ins (for closed evaluations) -/

/-- A table-driven `json.Unmarshal` stand-in: decodes the listed
strings to the listed objects, rejects everything else. -/
def umTable (t : List (String × GoObj)) : String → Except String GoObj :=
  fun s =>
    match t.lookup s with
    | some o => .ok o
    | none => .error "invalid json"

/-- A `json.Marshal` stand-in that always succeeds. -/
def marshalConst : GoObj → Except String String := fun _ => .ok "payload"

/-- An `httpClient.Post` stand-in returning a fixed response. -/
def postConst (r : HttpResponse) : String → Except String HttpResponse :=
  fun _ => .ok r

/-! ### Claims -/

/-- C1 (code evaluated at the failing input): a create statement whose
`priv` field is the JSON number `0` — which `json.Unmarshal` decodes to
`float64(0)`, so that the `body["priv"] != 0` comparison against the
`int`-typed constant at mgtv_mysql.go:125 is true — makes the `priv`
test truthy, and the username `NewUser` returns ends in `_rw`, not the
`_r` the claim requires. -/
theorem newUser_priv_number_zero_gives_rw_run :
    privTruthy [("priv", .goFloat64 0)] = true
    ∧ (NewUser (umTable [("stmt", [("priv", .goFloat64 0)]),
          ("respbody", [("status", .goFloat64 0)])])
        marshalConst (postConst ⟨200, .ok "respbody"⟩)
        (.ok "abcdefghijklmnop") "tok" "pw" ["stmt"]).fst
      = .ok "ABCDEFGHIJKLM_rw" :=
  ⟨by decide, by decide⟩

/-- C10: `DeleteUser` called with more than one revocation statement
behaves exactly as if called with just the first: the extra statements
are never read (mgtv_mysql.go:183 uses only `Commands[0]`), so in
particular no count validation rejects them. -/
theorem deleteUser_ignores_extra_statements
    (um : String → Except String GoObj) (m : GoObj → Except String String)
    (p : String → Except String HttpResponse)
    (token username s1 s2 : String) (rest : List String) :
    DeleteUser um m p token username (s1 :: s2 :: rest)
      = DeleteUser um m p token username [s1] := rfl

/-- C9: whatever the supplied configuration contains — including any
`connection_url` field, and whatever the `mapstructure` decode does
with it — a successful `Initialize` stores the environment variable
`vault_mysql_db` as the connection URL (connection_producer.go:60) and
echoes the supplied configuration back unchanged (mgtv_mysql.go:76-78,
connection_producer.go:65). -/
theorem init_env_url_overrides_and_echoes_config
    (decode : GoObj → ConnProducer → Except String ConnProducer)
    (envURL : String) (c : ConnProducer) (config : GoObj) (vc : Bool)
    (out : GoObj) (c' : ConnProducer)
    (h : mgtvInit decode envURL c config vc = (.ok out, c')) :
    c'.connectionURL = envURL ∧ out = config ∧ c'.inited = true := by
  simp only [mgtvInit, producerInit] at h
  cases hd : decode config { c with rawConfig := config } with
  | error e =>
    rw [hd] at h
    simp at h
  | ok c2 =>
    rw [hd] at h
    rw [Prod.mk.injEq] at h
    obtain ⟨h1, h2⟩ := h
    rw [← h2]
    exact ⟨rfl, (Except.ok.inj h1).symm, rfl⟩

/-- C9 witness: a concrete successful `Initialize` call. -/
theorem init_env_url_overrides_and_echoes_config_witness :
    mgtvInit (fun _ c => .ok c) "http://db.internal"
        ⟨"", "mgtv_mysql", [], 0, 0, 0, 0, false⟩
        [("connection_url", .goString "http://other")] true
      = (.ok [("connection_url", .goString "http://other")],
         ⟨"http://db.internal", "mgtv_mysql",
          [("connection_url", .goString "http://other")], 0, 0, 0, 0, true⟩)
    ∧ ((⟨"http://db.internal", "mgtv_mysql",
          [("connection_url", .goString "http://other")], 0, 0, 0, 0, true⟩ :
        ConnProducer).connectionURL = "http://db.internal"
      ∧ [("connection_url", .goString "http://other")]
          = [("connection_url", GoVal.goString "http://other")]
      ∧ (⟨"http://db.internal", "mgtv_mysql",
          [("connection_url", .goString "http://other")], 0, 0, 0, 0, true⟩ :
        ConnProducer).inited = true) :=
  ⟨rfl,
    init_env_url_overrides_and_echoes_config (fun _ c => .ok c)
      "http://db.internal" ⟨"", "mgtv_mysql", [], 0, 0, 0, 0, false⟩
      [("connection_url", .goString "http://other")] true
      [("connection_url", .goString "http://other")]
      ⟨"http://db.internal", "mgtv_mysql",
        [("connection_url", .goString "http://other")], 0, 0, 0, 0, true⟩
      rfl⟩

/-- C2: when the decoded response body has no `status` key (Go map
lookup then yields the nil interface) or a `status` that is not a JSON
number (not a `float64`), the unchecked type assertion
`status.(float64)` (mgtv_mysql.go:157,217) makes both `NewUser` and
`DeleteUser` die with a runtime panic rather than return an `error`. -/
theorem newUser_deleteUser_nonnumeric_status_fatal :
    (∀ (um : String → Except String GoObj)
        (m : GoObj → Except String String)
        (p : String → Except String HttpResponse)
        (raw token pw stmt : String) (body : GoObj)
        (payload respBody : String) (result : GoObj),
      token ≠ "" →
      um stmt = .ok body →
      m (newUserBody raw token pw body) = .ok payload →
      p payload = .ok ⟨200, .ok respBody⟩ →
      um respBody = .ok result →
      (∀ q, mapGet result "status" ≠ .goFloat64 q) →
      NewUser um m p (.ok raw) token pw [stmt]
        = (.fatal (assertFloat64Panic (mapGet result "status")),
           [newUserBody raw token pw body]))
    ∧ (∀ (um : String → Except String GoObj)
        (m : GoObj → Except String String)
        (p : String → Except String HttpResponse)
        (token uname stmt : String) (rev : GoObj)
        (payload respBody : String) (result : GoObj),
      um stmt = .ok rev →
      m (deleteBody token uname rev) = .ok payload →
      p payload = .ok ⟨200, .ok respBody⟩ →
      um respBody = .ok result →
      (∀ q, mapGet result "status" ≠ .goFloat64 q) →
      DeleteUser um m p token uname [stmt]
        = (.fatal (assertFloat64Panic (mapGet result "status")),
           [deleteBody token uname rev])) := by
  constructor
  · intro um m p raw token pw stmt body payload respBody result
      htok hum hm hpost hum2 hst
    have htok' : ¬ token.length = 0 :=
      fun h => htok ((string_length_eq_zero token).mp h)
    cases hv : mapGet result "status" with
    | goFloat64 q => exact absurd hv (hst q)
    | goNil => simp [NewUser, hum, hm, hpost, hum2, hv, htok']
    | goBool b => simp [NewUser, hum, hm, hpost, hum2, hv, htok']
    | goString s => simp [NewUser, hum, hm, hpost, hum2, hv, htok']
    | goInt n => simp [NewUser, hum, hm, hpost, hum2, hv, htok']
    | goArr l => simp [NewUser, hum, hm, hpost, hum2, hv, htok']
    | goMap f => simp [NewUser, hum, hm, hpost, hum2, hv, htok']
  · intro um m p token uname stmt rev payload respBody result
      hum hm hpost hum2 hst
    cases hv : mapGet result "status" with
    | goFloat64 q => exact absurd hv (hst q)
    | goNil => simp [DeleteUser, hum, hm, hpost, hum2, hv]
    | goBool b => simp [DeleteUser, hum, hm, hpost, hum2, hv]
    | goString s => simp [DeleteUser, hum, hm, hpost, hum2, hv]
    | goInt n => simp [DeleteUser, hum, hm, hpost, hum2, hv]
    | goArr l => simp [DeleteUser, hum, hm, hpost, hum2, hv]
    | goMap f => simp [DeleteUser, hum, hm, hpost, hum2, hv]

/-- C2 witness: a concrete HTTP-200 response whose body decodes to
`{"status": "bad"}` (a string, not a number) crashes both calls. -/
theorem newUser_deleteUser_nonnumeric_status_fatal_witness :
    ("tok" : String) ≠ ""
    ∧ umTable [("stmt", []), ("respbody", [("status", .goString "bad")])]
        "stmt" = .ok []
    ∧ umTable [("stmt", []), ("respbody", [("status", .goString "bad")])]
        "respbody" = .ok [("status", .goString "bad")]
    ∧ (∀ q, mapGet [("status", GoVal.goString "bad")] "status"
        ≠ .goFloat64 q)
    ∧ NewUser (umTable [("stmt", []), ("respbody", [("status", .goString "bad")])])
        marshalConst (postConst ⟨200, .ok "respbody"⟩)
        (.ok "user") "tok" "pw" ["stmt"]
      = (.fatal (assertFloat64Panic
          (mapGet [("status", GoVal.goString "bad")] "status")),
         [newUserBody "user" "tok" "pw" []])
    ∧ DeleteUser (umTable [("stmt", []), ("respbody", [("status", .goString "bad")])])
        marshalConst (postConst ⟨200, .ok "respbody"⟩)
        "tok" "USER_R" ["stmt"]
      = (.fatal (assertFloat64Panic
          (mapGet [("status", GoVal.goString "bad")] "status")),
         [deleteBody "tok" "USER_R" []]) :=
  by
  refine ⟨?_, ?_, ?_, ?_, ?_, ?_⟩
  · decide
  · rfl
  · rfl
  · intro q h
    exact nomatch h
  · exact newUser_deleteUser_nonnumeric_status_fatal.1
      (umTable [("stmt", []), ("respbody", [("status", .goString "bad")])])
      marshalConst (postConst ⟨200, .ok "respbody"⟩)
      "user" "tok" "pw" "stmt" [] "payload" "respbody"
      [("status", .goString "bad")]
      (by decide) rfl rfl rfl rfl (fun q h => nomatch h)
  · exact newUser_deleteUser_nonnumeric_status_fatal.2
      (umTable [("stmt", []), ("respbody", [("status", .goString "bad")])])
      marshalConst (postConst ⟨200, .ok "respbody"⟩)
      "tok" "USER_R" "stmt" [] "payload" "respbody"
      [("status", .goString "bad")]
      rfl rfl rfl rfl (fun q h => nomatch h)

/-- Every body object `DeleteUser` posts comes from decoding the first
statement and overlaying `action`/`token`/`username`
(mgtv_mysql.go:183-200). -/
theorem deleteUser_trace
    (um : String → Except String GoObj) (m : GoObj → Except String String)
    (p : String → Except String HttpResponse)
    (token uname : String) (stmts : List String) (b : GoObj)
    (hb : b ∈ (DeleteUser um m p token uname stmts).snd) :
    ∃ s rest rev, stmts = s :: rest ∧ um s = .ok rev
      ∧ b = deleteBody token uname rev := by
  cases stmts with
  | nil => simp [DeleteUser] at hb
  | cons s rest =>
    cases hum : um s with
    | error e => simp [DeleteUser, hum] at hb
    | ok rev =>
      refine ⟨s, rest, rev, rfl, hum, ?_⟩
      simp only [DeleteUser, hum] at hb
      repeat' split at hb
      all_goals simp_all

/-- C3 counterexample: called with the `mysql_token` environment value
empty, `DeleteUser` does not fail with a missing-token error — it
performs the network exchange (the trace is nonempty), embeds the empty
token in the posted body, and succeeds. -/
theorem deleteUser_ignores_empty_token_counterexample :
    DeleteUser (umTable [("stmt", []), ("respbody", [("status", .goFloat64 0)])])
        marshalConst (postConst ⟨200, .ok "respbody"⟩) "" "MYUSER_R" ["stmt"]
      = (.ok (), [deleteBody "" "MYUSER_R" []])
    ∧ mapGet (deleteBody "" "MYUSER_R" []) "token" = .goString "" :=
  ⟨rfl, rfl⟩

/-- C3 amended: only `NewUser` validates the token: with
`mysql_token` empty it fails with "not exist mysql token" before any
network I/O (mgtv_mysql.go:108-111).  `DeleteUser` performs no such
check: whatever it posts carries the empty token verbatim
(mgtv_mysql.go:194). -/
theorem token_validation_amended :
    (∀ (um : String → Except String GoObj)
        (m : GoObj → Except String String)
        (p : String → Except String HttpResponse)
        (raw pw : String) (stmts : List String),
      NewUser um m p (.ok raw) "" pw stmts
        = (.err "not exist mysql token", []))
    ∧ (∀ (um : String → Except String GoObj)
        (m : GoObj → Except String String)
        (p : String → Except String HttpResponse)
        (uname : String) (stmts : List String) (b : GoObj),
      b ∈ (DeleteUser um m p "" uname stmts).snd →
      mapGet b "token" = .goString "") := by
  constructor
  · intro um m p raw pw stmts
    rfl
  · intro um m p uname stmts b hb
    obtain ⟨s, rest, rev, -, -, hbody⟩ :=
      deleteUser_trace um m p "" uname stmts b hb
    rw [hbody]
    exact deleteBody_token _ _ _

/-- C3 witness: the `DeleteUser` conjunct applied to a concrete
traced body. -/
theorem token_validation_amended_witness :
    deleteBody "" "MYUSER_R" []
      ∈ (DeleteUser (umTable [("stmt", []), ("respbody", [("status", .goFloat64 0)])])
          marshalConst (postConst ⟨200, .ok "respbody"⟩)
          "" "MYUSER_R" ["stmt"]).snd
    ∧ mapGet (deleteBody "" "MYUSER_R" []) "token" = .goString "" :=
  ⟨List.mem_singleton.mpr rfl,
    token_validation_amended.2
      (umTable [("stmt", []), ("respbody", [("status", .goFloat64 0)])])
      marshalConst (postConst ⟨200, .ok "respbody"⟩)
      "MYUSER_R" ["stmt"] (deleteBody "" "MYUSER_R" [])
      (List.mem_singleton.mpr rfl)⟩

/-- C6: supplying zero create statements to `NewUser` fails with
"create_statement is empty" (mgtv_mysql.go:116-118), more than one
fails with "a maximum of one create_statement is supported"
(mgtv_mysql.go:113-115), and zero revocation statements make
`DeleteUser` fail its validation (mgtv_mysql.go:180-182); in all three
cases no network I/O happens (empty trace). -/
theorem statement_count_validation :
    (∀ (um : String → Except String GoObj)
        (m : GoObj → Except String String)
        (p : String → Except String HttpResponse)
        (raw token pw : String),
      token ≠ "" →
      NewUser um m p (.ok raw) token pw []
        = (.err "create_statement is empty", []))
    ∧ (∀ (um : String → Except String GoObj)
        (m : GoObj → Except String String)
        (p : String → Except String HttpResponse)
        (raw token pw s1 s2 : String) (rest : List String),
      token ≠ "" →
      NewUser um m p (.ok raw) token pw (s1 :: s2 :: rest)
        = (.err "a maximum of one create_statement is supported", []))
    ∧ (∀ (um : String → Except String GoObj)
        (m : GoObj → Except String String)
        (p : String → Except String HttpResponse)
        (token uname : String),
      DeleteUser um m p token uname [] = (.err (delEmptyMsg uname), [])) := by
  refine ⟨?_, ?_, ?_⟩
  · intro um m p raw token pw htok
    have htok' : ¬ token.length = 0 :=
      fun h => htok ((string_length_eq_zero token).mp h)
    simp [NewUser, htok']
  · intro um m p raw token pw s1 s2 rest htok
    have htok' : ¬ token.length = 0 :=
      fun h => htok ((string_length_eq_zero token).mp h)
    simp [NewUser, htok']
  · intro um m p token uname
    rfl

/-- C6 witness: concrete calls with zero and with two statements. -/
theorem statement_count_validation_witness :
    ("tok" : String) ≠ ""
    ∧ NewUser (umTable []) marshalConst (postConst ⟨200, .ok "x"⟩)
        (.ok "user") "tok" "pw" []
      = (.err "create_statement is empty", [])
    ∧ NewUser (umTable []) marshalConst (postConst ⟨200, .ok "x"⟩)
        (.ok "user") "tok" "pw" ["a", "b"]
      = (.err "a maximum of one create_statement is supported", [])
    ∧ DeleteUser (umTable []) marshalConst (postConst ⟨200, .ok "x"⟩)
        "tok" "MYUSER_R" []
      = (.err (delEmptyMsg "MYUSER_R"), []) :=
  ⟨by decide,
    statement_count_validation.1 _ _ _ "user" "tok" "pw" (by decide),
    statement_count_validation.2.1 _ _ _ "user" "tok" "pw" "a" "b" []
      (by decide),
    statement_count_validation.2.2 _ _ _ "tok" "MYUSER_R"⟩

theorem strIn_concat4_2 (a b c d : String) :
    strIn b (a ++ b ++ c ++ d) = true := by
  have h : a ++ b ++ c ++ d = a ++ b ++ (c ++ d) := by
    rw [String.append_assoc]
  rw [h]
  exact strIn_sandwich a b (c ++ d)

theorem strIn_tail3 (x p t s : String) :
    strIn t (x ++ (p ++ t ++ s)) = true := by
  have h : x ++ (p ++ t ++ s) = (x ++ p) ++ t ++ s := by
    rw [← String.append_assoc, ← String.append_assoc]
  rw [h]
  exact strIn_sandwich (x ++ p) t s

/-- C4 counterexample: on a non-200 response, `DeleteUser`'s error
message (mgtv_mysql.go:205) carries the status code but not the
subject username. -/
theorem deleteUser_non200_message_omits_username_counterexample :
    DeleteUser (umTable [("stmt", [])]) marshalConst
        (postConst ⟨500, .ok "respbody"⟩) "tok" "MYUSER" ["stmt"]
      = (.err "delete user failed: http statusCode: %!s(int=500)",
         [deleteBody "tok" "MYUSER" []])
    ∧ strIn "MYUSER"
        "delete user failed: http statusCode: %!s(int=500)" = false :=
  ⟨rfl, by decide⟩

/-- C4 amended: on any HTTP status other than 200, both calls fail
without reading or parsing the body (the result only depends on the
code): `NewUser`'s message names the final username and the status
code (mgtv_mysql.go:145); `DeleteUser`'s names only the status code
(mgtv_mysql.go:205).  In both, the code appears through `fmt`'s `%s`
bad-verb rendering `%!s(int=<code>)`. -/
theorem non200_error_amended :
    (∀ (um : String → Except String GoObj)
        (m : GoObj → Except String String)
        (p : String → Except String HttpResponse)
        (raw token pw stmt : String) (body : GoObj) (payload : String)
        (code : Int) (br : Except String String),
      token ≠ "" →
      um stmt = .ok body →
      m (newUserBody raw token pw body) = .ok payload →
      p payload = .ok ⟨code, br⟩ →
      code ≠ 200 →
      NewUser um m p (.ok raw) token pw [stmt]
        = (.err ("invoke db create user:" ++ newUserName raw body
            ++ " failed: http statusCode: " ++ goIntAsS code),
           [newUserBody raw token pw body])
        ∧ strIn (newUserName raw body)
            ("invoke db create user:" ++ newUserName raw body
              ++ " failed: http statusCode: " ++ goIntAsS code) = true
        ∧ strIn (toString code)
            ("invoke db create user:" ++ newUserName raw body
              ++ " failed: http statusCode: " ++ goIntAsS code) = true)
    ∧ (∀ (um : String → Except String GoObj)
        (m : GoObj → Except String String)
        (p : String → Except String HttpResponse)
        (token uname stmt : String) (rev : GoObj) (payload : String)
        (code : Int) (br : Except String String),
      um stmt = .ok rev →
      m (deleteBody token uname rev) = .ok payload →
      p payload = .ok ⟨code, br⟩ →
      code ≠ 200 →
      DeleteUser um m p token uname [stmt]
        = (.err ("delete user failed: http statusCode: " ++ goIntAsS code),
           [deleteBody token uname rev])
        ∧ strIn (toString code)
            ("delete user failed: http statusCode: " ++ goIntAsS code)
          = true) := by
  constructor
  · intro um m p raw token pw stmt body payload code br
      htok hum hm hpost hcode
    have htok' : ¬ token.length = 0 :=
      fun h => htok ((string_length_eq_zero token).mp h)
    refine ⟨?_, ?_, ?_⟩
    · simp [NewUser, hum, hm, hpost, htok', hcode]
    · exact strIn_concat4_2 "invoke db create user:" (newUserName raw body)
        " failed: http statusCode: " (goIntAsS code)
    · exact strIn_tail3
        ("invoke db create user:" ++ newUserName raw body
          ++ " failed: http statusCode: ")
        "%!s(int=" (toString code) ")"
  · intro um m p token uname stmt rev payload code br
      hum hm hpost hcode
    refine ⟨?_, ?_⟩
    · simp [DeleteUser, hum, hm, hpost, hcode]
    · exact strIn_tail3 "delete user failed: http statusCode: "
        "%!s(int=" (toString code) ")"

/-- C4 witness: a concrete 503 response for `NewUser` and a concrete
500 response for `DeleteUser`. -/
theorem non200_error_amended_witness :
    ("tok" : String) ≠ ""
    ∧ (503 : Int) ≠ 200
    ∧ (500 : Int) ≠ 200
    ∧ (NewUser (umTable [("stmt", [])]) marshalConst
          (postConst ⟨503, .ok "respbody"⟩)
          (.ok "user") "tok" "pw" ["stmt"]
        = (.err ("invoke db create user:" ++ newUserName "user" []
            ++ " failed: http statusCode: " ++ goIntAsS 503),
           [newUserBody "user" "tok" "pw" []])
      ∧ strIn (newUserName "user" [])
          ("invoke db create user:" ++ newUserName "user" []
            ++ " failed: http statusCode: " ++ goIntAsS 503) = true
      ∧ strIn (toString (503 : Int))
          ("invoke db create user:" ++ newUserName "user" []
            ++ " failed: http statusCode: " ++ goIntAsS 503) = true)
    ∧ (DeleteUser (umTable [("stmt", [])]) marshalConst
          (postConst ⟨500, .ok "respbody"⟩) "tok" "USER2_R" ["stmt"]
        = (.err ("delete user failed: http statusCode: " ++ goIntAsS 500),
           [deleteBody "tok" "USER2_R" []])
      ∧ strIn (toString (500 : Int))
          ("delete user failed: http statusCode: " ++ goIntAsS 500)
        = true) := by
  refine ⟨by decide, by decide, by decide, ?_, ?_⟩
  · exact non200_error_amended.1 (umTable [("stmt", [])]) marshalConst
      (postConst ⟨503, .ok "respbody"⟩) "user" "tok" "pw" "stmt" []
      "payload" 503 (.ok "respbody") (by decide) rfl rfl rfl (by decide)
  · exact non200_error_amended.2 (umTable [("stmt", [])]) marshalConst
      (postConst ⟨500, .ok "respbody"⟩) "tok" "USER2_R" "stmt" []
      "payload" 500 (.ok "respbody") rfl rfl rfl (by decide)

/-- C5: on an HTTP-200 response whose body decodes with a numeric
`status`, both calls succeed exactly when that status is `0`
(mgtv_mysql.go:156-164, 216-220); a non-zero status fails with a
message that ends in — hence contains — the `%s` rendering of the
body's `error` field. -/
theorem status_zero_success_nonzero_error :
    (∀ (um : String → Except String GoObj)
        (m : GoObj → Except String String)
        (p : String → Except String HttpResponse)
        (raw token pw stmt : String) (body : GoObj)
        (payload respBody : String) (result : GoObj) (q : Rat),
      token ≠ "" →
      um stmt = .ok body →
      m (newUserBody raw token pw body) = .ok payload →
      p payload = .ok ⟨200, .ok respBody⟩ →
      um respBody = .ok result →
      mapGet result "status" = .goFloat64 q →
      (q = 0 →
        NewUser um m p (.ok raw) token pw [stmt]
          = (.ok (newUserName raw body), [newUserBody raw token pw body]))
      ∧ (q ≠ 0 →
        NewUser um m p (.ok raw) token pw [stmt]
          = (.err ("invoke db create user:" ++ newUserName raw body
              ++ " failed: " ++ goFmtS (mapGet result "error")),
             [newUserBody raw token pw body])
          ∧ strIn (goFmtS (mapGet result "error"))
              ("invoke db create user:" ++ newUserName raw body
                ++ " failed: " ++ goFmtS (mapGet result "error")) = true))
    ∧ (∀ (um : String → Except String GoObj)
        (m : GoObj → Except String String)
        (p : String → Except String HttpResponse)
        (token uname stmt : String) (rev : GoObj)
        (payload respBody : String) (result : GoObj) (q : Rat),
      um stmt = .ok rev →
      m (deleteBody token uname rev) = .ok payload →
      p payload = .ok ⟨200, .ok respBody⟩ →
      um respBody = .ok result →
      mapGet result "status" = .goFloat64 q →
      (q = 0 →
        DeleteUser um m p token uname [stmt]
          = (.ok (), [deleteBody token uname rev]))
      ∧ (q ≠ 0 →
        DeleteUser um m p token uname [stmt]
          = (.err ("delete user failed: "
              ++ goFmtS (mapGet result "error")),
             [deleteBody token uname rev])
          ∧ strIn (goFmtS (mapGet result "error"))
              ("delete user failed: "
                ++ goFmtS (mapGet result "error")) = true)) := by
  constructor
  · intro um m p raw token pw stmt body payload respBody result q
      htok hum hm hpost hum2 hst
    have htok' : ¬ token.length = 0 :=
      fun h => htok ((string_length_eq_zero token).mp h)
    constructor
    · intro hq
      simp [NewUser, hum, hm, hpost, hum2, hst, htok', hq]
    · intro hq
      refine ⟨?_, ?_⟩
      · simp [NewUser, hum, hm, hpost, hum2, hst, htok', hq]
      · exact strIn_append_right
          ("invoke db create user:" ++ newUserName raw body ++ " failed: ")
          (goFmtS (mapGet result "error"))
  · intro um m p token uname stmt rev payload respBody result q
      hum hm hpost hum2 hst
    constructor
    · intro hq
      simp [DeleteUser, hum, hm, hpost, hum2, hst, hq]
    · intro hq
      refine ⟨?_, ?_⟩
      · simp [DeleteUser, hum, hm, hpost, hum2, hst, hq]
      · exact strIn_append_right "delete user failed: "
          (goFmtS (mapGet result "error"))

/-- C5 witness: `{"status":0}` makes a concrete `NewUser` call
succeed; `{"status":1,"error":"boom"}` makes a concrete `DeleteUser`
call fail with "boom" in the message. -/
theorem status_zero_success_nonzero_error_witness :
    ("tok" : String) ≠ ""
    ∧ (1 : Rat) ≠ 0
    ∧ NewUser (umTable [("stmt", []), ("okbody", [("status", .goFloat64 0)])])
        marshalConst (postConst ⟨200, .ok "okbody"⟩)
        (.ok "user") "tok" "pw" ["stmt"]
      = (.ok (newUserName "user" []), [newUserBody "user" "tok" "pw" []])
    ∧ (DeleteUser (umTable [("stmt", []),
          ("badbody", [("status", .goFloat64 1), ("error", .goString "boom")])])
        marshalConst (postConst ⟨200, .ok "badbody"⟩)
        "tok" "USER3_R" ["stmt"]
      = (.err ("delete user failed: "
          ++ goFmtS (mapGet [("status", GoVal.goFloat64 1),
              ("error", GoVal.goString "boom")] "error")),
         [deleteBody "tok" "USER3_R" []])
      ∧ strIn (goFmtS (mapGet [("status", GoVal.goFloat64 1),
            ("error", GoVal.goString "boom")] "error"))
          ("delete user failed: "
            ++ goFmtS (mapGet [("status", GoVal.goFloat64 1),
                ("error", GoVal.goString "boom")] "error")) = true) := by
  refine ⟨by decide, by decide, ?_, ?_⟩
  · exact (status_zero_success_nonzero_error.1
      (umTable [("stmt", []), ("okbody", [("status", .goFloat64 0)])])
      marshalConst (postConst ⟨200, .ok "okbody"⟩)
      "user" "tok" "pw" "stmt" [] "payload" "okbody"
      [("status", .goFloat64 0)] 0
      (by decide) rfl rfl rfl rfl rfl).1 rfl
  · exact (status_zero_success_nonzero_error.2
      (umTable [("stmt", []),
        ("badbody", [("status", .goFloat64 1), ("error", .goString "boom")])])
      marshalConst (postConst ⟨200, .ok "badbody"⟩)
      "tok" "USER3_R" "stmt" [] "payload" "badbody"
      [("status", .goFloat64 1), ("error", .goString "boom")] 1
      rfl rfl rfl rfl rfl).2 (by decide)

/-- Inversion of a successful `NewUser` run: success forces the single
happy path, so the returned name comes from the decoded statement and
the one posted body is the built request. -/
theorem newUser_ok_inv
    (um : String → Except String GoObj) (m : GoObj → Except String String)
    (p : String → Except String HttpResponse)
    (raw token pw : String) (stmts : List String)
    (name : String) (tr : List GoObj)
    (h : NewUser um m p (.ok raw) token pw stmts = (.ok name, tr)) :
    ∃ stmt body, stmts = [stmt] ∧ um stmt = .ok body
      ∧ name = newUserName raw body
      ∧ tr = [newUserBody raw token pw body] := by
  by_cases htok : token.length = 0
  · simp [NewUser, htok] at h
  cases stmts with
  | nil => simp [NewUser, htok] at h
  | cons stmt rest =>
    cases rest with
    | cons s2 r2 => simp [NewUser, htok] at h
    | nil =>
      cases hum : um stmt with
      | error e => simp [NewUser, htok, hum] at h
      | ok body =>
        refine ⟨stmt, body, rfl, hum, ?_⟩
        cases hm : m (newUserBody raw token pw body) with
        | error e => simp [NewUser, htok, hum, hm] at h
        | ok payload =>
          cases hpost : p payload with
          | error e => simp [NewUser, htok, hum, hm, hpost] at h
          | ok resp =>
            by_cases hcode : resp.statusCode = 200
            · cases hbr : resp.bodyRead with
              | error e =>
                simp [NewUser, htok, hum, hm, hpost, hcode, hbr] at h
              | ok respBody =>
                cases hum2 : um respBody with
                | error e =>
                  simp [NewUser, htok, hum, hm, hpost, hcode, hbr, hum2] at h
                | ok result =>
                  cases hst : mapGet result "status" with
                  | goFloat64 q =>
                    by_cases hq : q = 0
                    · simp [NewUser, htok, hum, hm, hpost, hcode, hbr,
                        hum2, hst, hq] at h
                      exact ⟨h.1.symm, h.2.symm⟩
                    · simp [NewUser, htok, hum, hm, hpost, hcode, hbr,
                        hum2, hst, hq] at h
                  | goNil =>
                    simp [NewUser, htok, hum, hm, hpost, hcode, hbr,
                      hum2, hst] at h
                  | goBool b =>
                    simp [NewUser, htok, hum, hm, hpost, hcode, hbr,
                      hum2, hst] at h
                  | goString s =>
                    simp [NewUser, htok, hum, hm, hpost, hcode, hbr,
                      hum2, hst] at h
                  | goInt n =>
                    simp [NewUser, htok, hum, hm, hpost, hcode, hbr,
                      hum2, hst] at h
                  | goArr l =>
                    simp [NewUser, htok, hum, hm, hpost, hcode, hbr,
                      hum2, hst] at h
                  | goMap f =>
                    simp [NewUser, htok, hum, hm, hpost, hcode, hbr,
                      hum2, hst] at h
            · simp [NewUser, htok, hum, hm, hpost, hcode] at h

/-- C7: every username a successful `NewUser` returns is the
13-character-truncated upper-cased generated name plus the `_r`/`_rw`
suffix — the pre-suffix part has length ≤ 13 (mgtv_mysql.go:100-105,
125-129) — and every body posted to the remote service carries exactly
this final username (mgtv_mysql.go:130). -/
theorem newUser_username_shape
    (um : String → Except String GoObj) (m : GoObj → Except String String)
    (p : String → Except String HttpResponse)
    (raw token pw : String) (stmts : List String)
    (name : String) (tr : List GoObj)
    (h : NewUser um m p (.ok raw) token pw stmts = (.ok name, tr)) :
    (strToUpper (nameTrunc raw maxKeyLength)).length ≤ 13
    ∧ (name = strToUpper (nameTrunc raw maxKeyLength) ++ "_r"
      ∨ name = strToUpper (nameTrunc raw maxKeyLength) ++ "_rw")
    ∧ ∀ b ∈ tr, mapGet b "username" = .goString name := by
  obtain ⟨stmt, body, hstmts, hum, hname, htr⟩ :=
    newUser_ok_inv um m p raw token pw stmts name tr h
  refine ⟨?_, ?_, ?_⟩
  · rw [strToUpper_length]
    exact nameTrunc_le raw
  · rw [hname]
    unfold newUserName
    by_cases hpriv : privTruthy body
    · right
      simp [hpriv]
    · left
      simp [hpriv]
  · intro b hb
    rw [htr, List.mem_singleton] at hb
    rw [hb, hname]
    exact newUserBody_username raw token pw body

/-- C7 witness: a concrete successful run with a 16-character
generated name and a non-privileged statement. -/
theorem newUser_username_shape_witness :
    NewUser (umTable [("stmt", []), ("okbody", [("status", .goFloat64 0)])])
        marshalConst (postConst ⟨200, .ok "okbody"⟩)
        (.ok "abcdefghijklmnop") "tok" "pw" ["stmt"]
      = (.ok "ABCDEFGHIJKLM_r",
         [newUserBody "abcdefghijklmnop" "tok" "pw" []])
    ∧ ((strToUpper (nameTrunc "abcdefghijklmnop" maxKeyLength)).length ≤ 13
      ∧ ("ABCDEFGHIJKLM_r"
          = strToUpper (nameTrunc "abcdefghijklmnop" maxKeyLength) ++ "_r"
        ∨ "ABCDEFGHIJKLM_r"
          = strToUpper (nameTrunc "abcdefghijklmnop" maxKeyLength) ++ "_rw")
      ∧ ∀ b ∈ [newUserBody "abcdefghijklmnop" "tok" "pw" []],
          mapGet b "username" = .goString "ABCDEFGHIJKLM_r") :=
  ⟨rfl,
    newUser_username_shape
      (umTable [("stmt", []), ("okbody", [("status", .goFloat64 0)])])
      marshalConst (postConst ⟨200, .ok "okbody"⟩)
      "abcdefghijklmnop" "tok" "pw" ["stmt"]
      "ABCDEFGHIJKLM_r" [newUserBody "abcdefghijklmnop" "tok" "pw" []]
      rfl⟩

/-- C8: any two concurrent calls drawn from
{`NewUser`, `DeleteUser`} on the same connection producer are mutually
excluded by its single mutex (mgtv_mysql.go:98-99, 176-177,
connection_producer.go:29): in every reachable interleaving, at most
one of the two callers is inside its critical section — which contains
the whole call body including the network exchange — at a time. -/
theorem issue_revoke_mutual_exclusion
    (progs : Fin 2 → List LockAct)
    (hps : ∀ t, progs t = newUserProg ∨ progs t = deleteUserProg)
    (s : MuState) (hr : MuReach progs s) :
    ¬ (inCrit s 0 ∧ inCrit s 1) := by
  rintro ⟨⟨h01, h02⟩, h11, h12⟩
  have h0 := muReach_inv hps hr 0 h01 h02
  have h1 := muReach_inv hps hr 1 h11 h12
  rw [h0] at h1
  have h2 : (0 : Fin 2) = 1 := Option.some.inj h1
  exact absurd h2 (by decide)

/-- C8 witness: the theorem applied to a concrete reachable state of a
concrete program assignment. -/
theorem issue_revoke_mutual_exclusion_witness :
    (∀ t, (fun _ : Fin 2 => newUserProg) t = newUserProg
      ∨ (fun _ : Fin 2 => newUserProg) t = deleteUserProg)
    ∧ MuReach (fun _ : Fin 2 => newUserProg) muInit
    ∧ ¬ (inCrit muInit 0 ∧ inCrit muInit 1) :=
  ⟨fun _ => Or.inl rfl, MuReach.start,
    issue_revoke_mutual_exclusion _ (fun _ => Or.inl rfl) _ MuReach.start⟩

end MgMysql
